import Mathlib

/-!
Shallow embedding of the habit analytics engine from `src/lib/ai-analytics.ts`
(`class HabitAnalyticsAI`), together with proofs about the claims of the
natural-language specification.

Modelling conventions (recorded once here):
* JavaScript numbers are modelled by `ℚ` (exact rational arithmetic); all the
  literals of the source (`0.7`, `0.8`, ...) are written as exact rationals.
* `HabitEntry.date` is a calendar-day number: the source stores ISO date strings
  and keys equality on `date.split('T')[0]`, and the persistence layer
  guarantees at most one entry per habit per calendar day, so two entries refer
  to the same calendar day iff their day numbers are equal.  `new Date(d).getDay()`
  becomes `(d + 4) % 7` (epoch day 0, 1970-01-01, was a Thursday).
* `completedAt` is an optional epoch-millisecond timestamp; `getHours()` on it is
  `t / 3600000 % 24` (UTC).  A date-only ISO string parses to midnight, so the
  hour-of-day fallback `new Date(entry.date).getHours()` is `0`.
* Optional numeric fields (`mood`, `difficulty`) are `Option Nat`; JavaScript
  truthiness (`e.mood && ...`) is `some m` with `m ≠ 0`.
* `timeOfDay` is the four-valued enum of the data model (the source types it as
  a string but `analyzeTimePatterns` indexes a four-key record with it).
* JavaScript `Array.prototype.sort` is a stable sort w.r.t. its comparator, and
  the stable sort of a list w.r.t. a total preorder is unique; it is modelled by
  `List.insertionSort` (stable) with `r a b ↔ comparator a b ≤ 0`.
* Plain objects with numeric keys (`weekdayStats`, `hourlyStats`) enumerate
  their keys in ascending numeric order, hence the `List.range` scans below;
  `Map`s and string-keyed objects enumerate in insertion order, modelled by
  association lists that append new keys.
* Fields never read by the engine (`value`, `notes`, `frequency`, `createdAt`,
  `color`) and the presentation-only `description` strings (text interpolated
  from the same numeric data that is kept) are omitted from the model, as is the
  never-consulted TensorFlow model object.
* The caller-supplied used-recommendation `Set<string>` is a `List String`
  queried only through membership.
-/

namespace HabitAnalytics

inductive TimeOfDay where
  | morning
  | afternoon
  | evening
  | night
deriving DecidableEq, Repr

structure HabitEntry where
  date : Nat
  completed : Bool
  completedAt : Option Nat
  timeOfDay : Option TimeOfDay
  mood : Option Nat
  difficulty : Option Nat
deriving DecidableEq, Repr

structure HabitData where
  id : String
  title : String
  entries : List HabitEntry
  category : Option String
deriving DecidableEq, Repr

inductive InsightType where
  | prediction
  | pattern
  | recommendation
  | streak
  | optimization
deriving DecidableEq, Repr

inductive Priority where
  | high
  | medium
  | low
deriving DecidableEq, Repr

structure HourPerf where
  hour : Nat
  rate : ℚ
  total : Nat
deriving DecidableEq, Repr

/-- The `data` payloads attached to insights, one variant per producing site,
carrying exactly the fields the source stores there (minus the constant
`recommendationType` tags, which are determined by the variant). -/
inductive InsightData where
  | bestDayData (day : String) (rate : ℚ)
  | worstDayData (day : String) (rate : ℚ)
  | streakRisk (habitId : String) (riskScore : ℚ)
  | correlationData (habit1 habit2 : String) (corr : ℚ)
  | timingData (hours : List HourPerf)
  | bestPeriodData (period : TimeOfDay) (rate : ℚ)
  | energyData (best worst : String) (difference : ℚ)
  | suggestionData (title category : String) (confidence : ℚ)
  | stackingData (habit1 habit2 : String) (frequency : Nat)
  | difficultyAdj (habitId : String) (rate : ℚ) (adjustment : String)
  | recoveryData (habitId : String) (missed completedDays : Nat)
  | enhancedData (habitId : String) (optimalTime : String) (avgHour : ℚ)
  | timePatternData (bestTime : TimeOfDay) (rate : ℚ)
  | moodData (habitId : String) (avgMood : ℚ)
  | trendData (habitId : String) (change recentAvg earlierAvg : ℚ)
deriving DecidableEq, Repr

structure AIInsight where
  type : InsightType
  title : String
  confidence : ℚ
  actionable : Option Bool
  showActionButton : Option Bool
  priority : Priority
  data : Option InsightData
deriving DecidableEq, Repr

/-! ### Shared helpers -/

/-- `new Date(dayNumber).getDay()`: epoch day 0 was a Thursday (weekday 4). -/
def dayOfWeek (d : Nat) : Nat := (d + 4) % 7

/-- `getHours()` of an epoch-millisecond timestamp (UTC). -/
def hourOfMs (t : Nat) : Nat := t / 3600000 % 24

/-- Hour of an entry as used by `analyzeOptimalTiming`:
`entry.completedAt ? new Date(entry.completedAt) : new Date(entry.date)`, and a
date-only string parses to midnight (hour 0). -/
def entryHour (e : HabitEntry) : Nat :=
  match e.completedAt with
  | some t => hourOfMs t
  | none => 0

/-- JavaScript truthiness of an optional number (`undefined` and `0` are falsy). -/
def optNatTruthy : Option Nat → Bool
  | none => false
  | some n => n != 0

/-- `e.mood || 0`. -/
def moodOrZero (e : HabitEntry) : ℚ := (e.mood.getD 0 : Nat)

/-- `e.difficulty || 0`. -/
def diffOrZero (e : HabitEntry) : ℚ := (e.difficulty.getD 0 : Nat)

/-- `e.difficulty || 5`. -/
def diffOr5 (e : HabitEntry) : ℚ :=
  match e.difficulty with
  | some d => if d ≠ 0 then (d : ℚ) else 5
  | none => 5

/-- `e.mood || 5`. -/
def moodOr5 (e : HabitEntry) : ℚ :=
  match e.mood with
  | some m => if m ≠ 0 then (m : ℚ) else 5
  | none => 5

/-- `x || d` for a JavaScript number already known not to be `NaN`. -/
def qOr (x d : ℚ) : ℚ := if x = 0 then d else x

/-- `Math.round`: round half toward positive infinity. -/
def jsRound (q : ℚ) : ℤ := ⌊q + 1/2⌋

/-- `l.slice(-n)`: the last `min n l.length` elements in order. -/
def sliceLast (n : Nat) (l : List α) : List α := l.drop (l.length - n)

/-- `.sort((a, b) => new Date(b.date).getTime() - new Date(a.date).getTime())`:
stable sort, newest first. -/
def sortByDateDesc (l : List HabitEntry) : List HabitEntry :=
  List.insertionSort (fun a b => b.date ≤ a.date) l

/-- `.sort((a, b) => new Date(a.date).getTime() - new Date(b.date).getTime())`:
stable sort, oldest first. -/
def sortByDateAsc (l : List HabitEntry) : List HabitEntry :=
  List.insertionSort (fun a b => a.date ≤ b.date) l

/-- First-occurrence deduplication, the iteration order of a JavaScript `Set`
built by repeated insertion. -/
def dedupFirstAux [DecidableEq α] (seen : List α) : List α → List α
  | [] => []
  | a :: t => if a ∈ seen then dedupFirstAux seen t else a :: dedupFirstAux (a :: seen) t

def dedupFirst [DecidableEq α] (l : List α) : List α := dedupFirstAux [] l

def dayNames : List String :=
  ["Sunday", "Monday", "Tuesday", "Wednesday", "Thursday", "Friday", "Saturday"]

def dayNameOf (d : Nat) : String := dayNames.getD d ""

def allEntries (habits : List HabitData) : List HabitEntry :=
  habits.flatMap (·.entries)

/-! ### 4.1 Weekday pattern analyzer (`analyzeWeekdayPatterns`) -/

structure DayStat where
  day : Nat
  dayName : String
  rate : ℚ
  total : Nat
deriving DecidableEq, Repr

def weekdayTotal (habits : List HabitData) (d : Nat) : Nat :=
  (allEntries habits).countP (fun e => dayOfWeek e.date == d)

def weekdayCompleted (habits : List HabitData) (d : Nat) : Nat :=
  (allEntries habits).countP (fun e => dayOfWeek e.date == d && e.completed)

/-- `Object.entries(weekdayStats)` (numeric keys, ascending), mapped to
performances and filtered to days with at least 3 samples. -/
def dayPerformances (habits : List HabitData) : List DayStat :=
  ((List.range 7).filterMap (fun d =>
    if weekdayTotal habits d = 0 then none
    else some { day := d, dayName := dayNameOf d,
                rate := (weekdayCompleted habits d : ℚ) / (weekdayTotal habits d : ℚ),
                total := weekdayTotal habits d })).filter (fun s => 3 ≤ s.total)

/-- `reduce((max, current) => current.rate > max.rate ? current : max)`. -/
def reduceBestDay (acc : DayStat) : List DayStat → DayStat
  | [] => acc
  | c :: t => reduceBestDay (if c.rate > acc.rate then c else acc) t

/-- `reduce((min, current) => current.rate < min.rate ? current : min)`. -/
def reduceWorstDay (acc : DayStat) : List DayStat → DayStat
  | [] => acc
  | c :: t => reduceWorstDay (if c.rate < acc.rate then c else acc) t

def analyzeWeekdayPatterns (used : List String) (habits : List HabitData) : List AIInsight :=
  match dayPerformances habits with
  | [] => []
  | d0 :: rest =>
    let bestDay := reduceBestDay d0 rest
    let worstDay := reduceWorstDay d0 rest
    (if bestDay.rate > 4/5 ∧ ("day_" ++ bestDay.dayName) ∉ used then
      [{ type := .pattern, title := bestDay.dayName ++ " Champion", confidence := 9/10,
         actionable := some true, showActionButton := some true, priority := .medium,
         data := some (.bestDayData bestDay.dayName bestDay.rate) }]
     else [])
    ++ (if worstDay.rate < 1/2 ∧ 5 ≤ worstDay.total ∧ ("day_" ++ worstDay.dayName) ∉ used then
      [{ type := .optimization, title := worstDay.dayName ++ " Needs Attention", confidence := 4/5,
         actionable := some true, showActionButton := some true, priority := .high,
         data := some (.worstDayData worstDay.dayName worstDay.rate) }]
     else [])
    ++ (if bestDay.rate > 3/5 ∧ bestDay.rate ≤ 4/5 then
      [{ type := .pattern, title := bestDay.dayName ++ " Performance", confidence := 7/10,
         actionable := some false, showActionButton := some false, priority := .low,
         data := some (.bestDayData bestDay.dayName bestDay.rate) }]
     else [])

/-! ### 4.2 Streak vulnerability predictor (`analyzeStreakVulnerability`) -/

/-- `calculateVariance` (population variance; only ever called on lists of
length at least 7). -/
def calculateVariance (data : List ℚ) : ℚ :=
  let mean := data.sum / (data.length : ℚ)
  (data.map (fun x => (x - mean) ^ 2)).sum / (data.length : ℚ)

def streakInsightOf (habit : HabitData) : List AIInsight :=
  let recentEntries := sortByDateDesc (sliceLast 14 habit.entries)
  if recentEntries.length < 7 then []
  else
    let completionPattern := recentEntries.map (fun e => if e.completed then (1 : ℚ) else 0)
    let recentCompletionRate := completionPattern.sum / (completionPattern.length : ℚ)
    let variance := calculateVariance completionPattern
    if recentCompletionRate > 7/10 ∧ variance > 3/20 then
      [{ type := .prediction, title := "\"" ++ habit.title ++ "\" Streak at Risk",
         confidence := 3/4, actionable := some true, showActionButton := none,
         priority := .high, data := some (.streakRisk habit.id (1 - recentCompletionRate)) }]
    else []

def analyzeStreakVulnerability (habits : List HabitData) : List AIInsight :=
  habits.flatMap streakInsightOf

/-! ### 4.3 Correlation engine (`calculateHabitCorrelation`, `findHabitCorrelations`) -/

def dateKeys (h : HabitData) : List Nat := h.entries.map (·.date)

/-- `Array.from(dates1).filter(date => dates2.has(date))`. -/
def commonDates (h1 h2 : HabitData) : List Nat :=
  (dedupFirst (dateKeys h1)).filter (fun d => d ∈ dateKeys h2)

/-- `habit.entries.find(e => e.date.split('T')[0] === date)?.completed`
(optional chaining: a missing entry reads as not completed). -/
def completedOn (h : HabitData) (d : Nat) : Bool :=
  match h.entries.find? (fun e => e.date == d) with
  | some e => e.completed
  | none => false

def calculateHabitCorrelation (h1 h2 : HabitData) : ℚ :=
  let cd := commonDates h1 h2
  if cd.length < 5 then 0
  else
    let bothCompleted := cd.countP (fun d => completedOn h1 d && completedOn h2 d)
    let eitherCompleted := cd.countP (fun d => completedOn h1 d || completedOn h2 d)
    if 0 < eitherCompleted then (bothCompleted : ℚ) / (eitherCompleted : ℚ) else 0

def corrPairInsight (used : List String) (h1 h2 : HabitData) : List AIInsight :=
  let correlation := calculateHabitCorrelation h1 h2
  if correlation > 3/5 ∧ ("correlation_" ++ h1.title ++ "_" ++ h2.title) ∉ used then
    [{ type := .pattern, title := "Strong Connection Found", confidence := correlation,
       actionable := some true, showActionButton := some true, priority := .medium,
       data := some (.correlationData h1.title h2.title correlation) }]
  else []

/-- The `i < j` double loop of `findHabitCorrelations` (the `habits.length < 2`
early return produces the same empty list). -/
def findHabitCorrelations (used : List String) : List HabitData → List AIInsight
  | [] => []
  | h :: t => t.flatMap (corrPairInsight used h) ++ findHabitCorrelations used t

/-! ### 4.5 Timing optimizer (`analyzeOptimalTiming`, `analyzeEnergyPatterns`) -/

def hourTotal (habits : List HabitData) (h : Nat) : Nat :=
  (allEntries habits).countP (fun e => entryHour e == h)

def hourCompleted (habits : List HabitData) (h : Nat) : Nat :=
  (allEntries habits).countP (fun e => entryHour e == h && e.completed)

/-- `Object.entries(hourlyStats)` (numeric keys, ascending), mapped, filtered to
hours with at least 3 samples and stably sorted by rate descending. -/
def hourlyPerformance (habits : List HabitData) : List HourPerf :=
  (((List.range 24).filterMap (fun h =>
      if hourTotal habits h = 0 then none
      else some { hour := h, rate := (hourCompleted habits h : ℚ) / (hourTotal habits h : ℚ),
                  total := hourTotal habits h })).filter (fun p => 3 ≤ p.total)).insertionSort
    (fun a b => b.rate ≤ a.rate)

def timingKey (hours : List HourPerf) : String :=
  "timing_" ++ String.intercalate "," (hours.map (fun h => toString h.hour))

def peakHoursInsight (used : List String) (habits : List HabitData) : List AIInsight :=
  let perf := hourlyPerformance habits
  if 0 < perf.length then
    let bestHours := perf.take 3
    if timingKey bestHours ∉ used then
      [{ type := .optimization, title := "Your Peak Performance Hours", confidence := 4/5,
         actionable := some false, showActionButton := some false, priority := .medium,
         data := some (.timingData bestHours) }]
    else []
  else []

structure PeriodPerf where
  period : TimeOfDay
  rate : ℚ
  total : Nat
deriving DecidableEq, Repr

/-- `timeOfDayStats` counts an entry only when `entry.timeOfDay && entry.completed`,
and then increments BOTH `completed` and `total`, so for every present bucket
`completed = total` (uncompleted entries carrying the bucket are never counted). -/
def todCompletedOnlyCount (habits : List HabitData) (p : TimeOfDay) : Nat :=
  (allEntries habits).countP (fun e => e.timeOfDay == some p && e.completed)

/-- Keys of `timeOfDayStats` in insertion order (first completed occurrence). -/
def todKeysInOrder (habits : List HabitData) : List TimeOfDay :=
  dedupFirst ((allEntries habits).filterMap (fun e => if e.completed then e.timeOfDay else none))

def todCap : TimeOfDay → String
  | .morning => "Morning"
  | .afternoon => "Afternoon"
  | .evening => "Evening"
  | .night => "Night"

def timeOfDayPerformance (habits : List HabitData) : List PeriodPerf :=
  (((todKeysInOrder habits).map (fun p =>
      let n := todCompletedOnlyCount habits p
      { period := p, rate := if 0 < n then (n : ℚ) / (n : ℚ) else 0, total := n }))
    |>.filter (fun s => 3 ≤ s.total)).insertionSort (fun a b => b.rate ≤ a.rate)

def bestPeriodInsight (habits : List HabitData) : List AIInsight :=
  if todKeysInOrder habits ≠ [] then
    match timeOfDayPerformance habits with
    | [] => []
    | bestPeriod :: _ =>
      [{ type := .pattern, title := "Best Time of Day: " ++ todCap bestPeriod.period,
         confidence := 17/20, actionable := some false, showActionButton := some false,
         priority := .medium, data := some (.bestPeriodData bestPeriod.period bestPeriod.rate) }]
  else []

def analyzeEnergyPatterns (hourlyPerf : List HourPerf) : List AIInsight :=
  if hourlyPerf.length < 4 then []
  else
    let morningHours := hourlyPerf.filter (fun h => 6 ≤ h.hour ∧ h.hour < 12)
    let afternoonHours := hourlyPerf.filter (fun h => 12 ≤ h.hour ∧ h.hour < 17)
    let eveningHours := hourlyPerf.filter (fun h => 17 ≤ h.hour ∧ h.hour < 22)
    let periods := ([("morning", morningHours), ("afternoon", afternoonHours),
                     ("evening", eveningHours)]).filter (fun p => 0 < p.2.length)
    let periodPerformance := (periods.map (fun p =>
        (p.1, (p.2.map (·.rate)).sum / (p.2.length : ℚ)))).insertionSort
      (fun a b => b.2 ≤ a.2)
    if 2 ≤ periodPerformance.length then
      let bestPeriod := periodPerformance.headD ("", 0)
      let worstPeriod := periodPerformance.getLastD ("", 0)
      if bestPeriod.2 - worstPeriod.2 > 1/5 then
        [{ type := .pattern, title := "Energy Level Pattern Detected", confidence := 3/4,
           actionable := some false, showActionButton := some false, priority := .medium,
           data := some (.energyData bestPeriod.1 worstPeriod.1 (bestPeriod.2 - worstPeriod.2)) }]
      else []
    else []

def analyzeOptimalTiming (used : List String) (habits : List HabitData) : List AIInsight :=
  peakHoursInsight used habits ++ bestPeriodInsight habits
    ++ analyzeEnergyPatterns (hourlyPerformance habits)

/-! ### 4.6 Smart recommendation generator (`getComplementaryHabits` and callers) -/

structure HabitRec where
  title : String
  confidence : ℚ
  category : String
deriving DecidableEq, Repr

/-- Substring test on character lists (`String.prototype.includes`). -/
def charsContain (l sub : List Char) : Bool :=
  l.tails.any (fun t => sub.isPrefixOf t)

/-- `h.title.toLowerCase().includes(sub)` (character-list implementation of
`toLowerCase`, identical to `String.toLower`). -/
def titleHas (h : HabitData) (sub : String) : Bool :=
  charsContain (h.title.data.map Char.toLower) sub.data

def getComplementaryHabits (existingHabits : List HabitData) : List HabitRec :=
  let categories := existingHabits.map (fun h => h.category.getD "General")
  ((if "Health" ∈ categories ∧ ¬ existingHabits.any (fun h => titleHas h "water") then
      [{ title := "Drink 8 glasses of water", confidence := 4/5, category := "Health" : HabitRec }]
    else [])
   ++ (if "Productivity" ∈ categories ∧ ¬ existingHabits.any (fun h => titleHas h "meditation") then
      [{ title := "10-minute morning meditation", confidence := 3/4, category := "Wellness" : HabitRec }]
    else [])
   ++ (if 3 ≤ existingHabits.length ∧ "Learning" ∉ categories then
      [{ title := "Read for 20 minutes", confidence := 7/10, category := "Learning" : HabitRec }]
    else [])).take 2

def suggestionInsights (used : List String) (habits : List HabitData) : List AIInsight :=
  (getComplementaryHabits habits).flatMap (fun r =>
    if ("suggestion_" ++ r.title) ∉ used then
      [{ type := .recommendation, title := "Suggested: " ++ r.title, confidence := r.confidence,
         actionable := some true, showActionButton := some true, priority := .medium,
         data := some (.suggestionData r.title r.category r.confidence) }]
    else [])

/-! ### 4.4 Habit stacking detector (`generateHabitStackingRecommendations`) -/

/-- Add `habitId` to the id set of `date` in the insertion-ordered
`dailyCompletions` map. -/
def addCompletion (m : List (Nat × List String)) (d : Nat) (i : String) :
    List (Nat × List String) :=
  match m with
  | [] => [(d, [i])]
  | (d', ids) :: t =>
    if d' = d then (d', if i ∈ ids then ids else ids ++ [i]) :: t
    else (d', ids) :: addCompletion t d i

def dailyCompletions (habits : List HabitData) : List (Nat × List String) :=
  habits.foldl (fun m h =>
    h.entries.foldl (fun m e => if e.completed then addCompletion m e.date h.id else m) m) []

/-- JavaScript default `Array.prototype.sort()`: lexicographic string order. -/
def sortStrings (l : List String) : List String :=
  List.insertionSort (fun a b => ¬ b < a) l

/-- Keys `a + ":" + b` for the `i < j` inner double loop. -/
def pairKeysOf : List String → List String
  | [] => []
  | a :: t => t.map (fun b => a ++ ":" ++ b) ++ pairKeysOf t

def bumpCount (m : List (String × Nat)) (k : String) : List (String × Nat) :=
  match m with
  | [] => [(k, 1)]
  | (k', n) :: t => if k' = k then (k', n + 1) :: t else (k', n) :: bumpCount t k

def stackingOpportunities (habits : List HabitData) : List (String × Nat) :=
  (dailyCompletions habits).foldl (fun m p =>
    if 2 ≤ p.2.length then (pairKeysOf (sortStrings p.2)).foldl bumpCount m else m) []

/-- `String.prototype.split` with a single-character separator
(`''.split(c)` is `[""]`, matching the `[[]]` base case). -/
def splitOnChar (c : Char) : List Char → List (List Char)
  | [] => [[]]
  | a :: t =>
    if a = c then [] :: splitOnChar c t
    else
      match splitOnChar c t with
      | [] => [[a]]
      | h :: r => (a :: h) :: r

def jsSplitColon (s : String) : List String :=
  (splitOnChar (Char.ofNat 58) s.data).map String.mk

def generateHabitStackingRecommendations (used : List String) (habits : List HabitData) :
    List AIInsight :=
  (stackingOpportunities habits).flatMap (fun p =>
    if 5 ≤ p.2 then
      let parts := jsSplitColon p.1
      match (parts.get? 0).bind (fun i => habits.find? (fun h => h.id == i)),
            (parts.get? 1).bind (fun i => habits.find? (fun h => h.id == i)) with
      | some habit1, some habit2 =>
        if ("stacking_" ++ habit1.title ++ "_" ++ habit2.title) ∉ used then
          [{ type := .pattern, title := "Habit Stacking Opportunity",
             confidence := min (9/10) ((p.2 : ℚ) / 10),
             actionable := some true, showActionButton := some true, priority := .medium,
             data := some (.stackingData habit1.title habit2.title p.2) }]
        else []
      | _, _ => []
    else [])

/-! ### 4.7 Difficulty adjustment analyzer (`analyzeDifficultyAdjustments`) -/

def difficultyAdjInsightOf (habit : HabitData) : List AIInsight :=
  let recentEntries := sliceLast 21 habit.entries
  if recentEntries.length < 14 then []
  else
    let completionRate := (recentEntries.countP (·.completed) : ℚ) / (recentEntries.length : ℚ)
    if completionRate < 3/10 then
      [{ type := .optimization, title := "Simplify \"" ++ habit.title ++ "\"", confidence := 4/5,
         actionable := some true, showActionButton := none, priority := .high,
         data := some (.difficultyAdj habit.id completionRate "simplify") }]
    else if completionRate > 9/10 ∧ 21 ≤ recentEntries.length then
      [{ type := .optimization, title := "Level Up \"" ++ habit.title ++ "\"", confidence := 7/10,
         actionable := some true, showActionButton := none, priority := .medium,
         data := some (.difficultyAdj habit.id completionRate "challenge") }]
    else []

/-! ### 4.8 Recovery strategy generator (`generateRecoveryStrategies`) -/

def recoveryInsightOf (habit : HabitData) : List AIInsight :=
  let recentEntries := sortByDateDesc (sliceLast 7 habit.entries)
  if recentEntries.length < 5 then []
  else
    let missedDays := (recentEntries.filter (fun e => !e.completed)).length
    let completedDays := (recentEntries.filter (·.completed)).length
    if 2 ≤ missedDays ∧ 2 ≤ completedDays then
      [{ type := .optimization, title := "Recovery Plan for \"" ++ habit.title ++ "\"",
         confidence := 3/4, actionable := some true, showActionButton := none,
         priority := .medium, data := some (.recoveryData habit.id missedDays completedDays) }]
    else []

def generateSmartRecommendations (used : List String) (habits : List HabitData) :
    List AIInsight :=
  suggestionInsights used habits
    ++ generateHabitStackingRecommendations used habits
    ++ habits.flatMap difficultyAdjInsightOf
    ++ habits.flatMap recoveryInsightOf

/-! ### `analyzeEnhancedPatterns` -/

def enhancedInsightOf (habit : HabitData) : List AIInsight :=
  let completedEntries := habit.entries.filter (·.completed)
  if completedEntries.length < 5 then []
  else
    let completionTimes : List Nat := completedEntries.filterMap (fun e => e.completedAt.map hourOfMs)
    if 3 ≤ completionTimes.length then
      let avgHour := ((completionTimes.map (fun h => (h : ℚ))).sum) / (completionTimes.length : ℚ)
      let timeOfDay : String :=
        if avgHour < 12 then "morning" else if avgHour < 17 then "afternoon" else "evening"
      [{ type := .pattern, title := "Optimal Time Pattern for " ++ habit.title,
         confidence := 4/5, actionable := some true, showActionButton := none,
         priority := .medium, data := some (.enhancedData habit.id timeOfDay avgHour) }]
    else []

/-! ### `analyzeTimePatterns` -/

def todTotal (habits : List HabitData) (p : TimeOfDay) : Nat :=
  (allEntries habits).countP (fun e => e.timeOfDay == some p)

def todCompleted (habits : List HabitData) (p : TimeOfDay) : Nat :=
  (allEntries habits).countP (fun e => e.timeOfDay == some p && e.completed)

/-- The `Object.entries(timeSuccessRates)` fold: keys in literal insertion order
morning, afternoon, evening, night; strict improvement updates the best. -/
def bestTimeFold (habits : List HabitData) : TimeOfDay × ℚ :=
  ([TimeOfDay.morning, .afternoon, .evening, .night]).foldl
    (fun acc t =>
      if 5 ≤ todTotal habits t then
        let rate := (todCompleted habits t : ℚ) / (todTotal habits t : ℚ)
        if rate > acc.2 then (t, rate) else acc
      else acc)
    (.morning, 0)

def analyzeTimePatterns (habits : List HabitData) : List AIInsight :=
  let best := bestTimeFold habits
  if best.2 > 4/5 then
    [{ type := .optimization, title := "Peak Performance Time Identified", confidence := 17/20,
       actionable := some true, showActionButton := some true, priority := .high,
       data := some (.timePatternData best.1 best.2) }]
  else []

/-! ### 4.9 Mood correlation analyzer (`analyzeMoodCorrelations`) -/

def moodInsightOf (habit : HabitData) : List AIInsight :=
  let entriesWithMood := habit.entries.filter (fun e => e.completed && optNatTruthy e.mood)
  if entriesWithMood.length < 5 then []
  else
    let avgMood := (entriesWithMood.map moodOrZero).sum / (entriesWithMood.length : ℚ)
    if 8 ≤ avgMood then
      [{ type := .recommendation, title := habit.title ++ " Boosts Your Mood",
         confidence := 9/10, actionable := some false, showActionButton := none,
         priority := .medium, data := some (.moodData habit.id avgMood) }]
    else if avgMood ≤ 4 then
      [{ type := .optimization, title := habit.title ++ " May Need Adjustment",
         confidence := 4/5, actionable := some true, showActionButton := some true,
         priority := .high, data := some (.moodData habit.id avgMood) }]
    else []

/-! ### 4.10 Difficulty trend analyzer (`analyzeDifficultyTrends`) -/

def trendInsightOf (habit : HabitData) : List AIInsight :=
  let entriesWithDifficulty :=
    sortByDateAsc (habit.entries.filter (fun e => e.completed && optNatTruthy e.difficulty))
  if entriesWithDifficulty.length < 7 then []
  else
    let recentEntries := sliceLast 5 entriesWithDifficulty
    let earlierEntries := entriesWithDifficulty.take 5
    let recentAvg := (recentEntries.map diffOrZero).sum / (recentEntries.length : ℚ)
    let earlierAvg := (earlierEntries.map diffOrZero).sum / (earlierEntries.length : ℚ)
    let difficultyChange := recentAvg - earlierAvg
    if difficultyChange ≤ -2 then
      [{ type := .recommendation, title := habit.title ++ " is Getting Easier",
         confidence := 17/20, actionable := some true, showActionButton := some true,
         priority := .medium,
         data := some (.trendData habit.id difficultyChange recentAvg earlierAvg) }]
    else if 2 ≤ difficultyChange then
      [{ type := .optimization, title := habit.title ++ " Becoming More Challenging",
         confidence := 4/5, actionable := some true, showActionButton := some true,
         priority := .high,
         data := some (.trendData habit.id difficultyChange recentAvg earlierAvg) }]
    else []

/-! ### 4.11 Insight ranker (`analyzeHabits`) -/

def priorityWeight : Priority → Nat
  | .high => 3
  | .medium => 2
  | .low => 1

/-- `insightRel a b` iff the sort comparator
`(a, b) => priorityOrder[b.priority] - priorityOrder[a.priority] || b.confidence - a.confidence`
is nonpositive on `(a, b)`: priority weight descending, ties by confidence
descending. -/
def insightRel (a b : AIInsight) : Prop :=
  priorityWeight b.priority < priorityWeight a.priority ∨
    (priorityWeight b.priority = priorityWeight a.priority ∧ b.confidence ≤ a.confidence)

instance (a b : AIInsight) : Decidable (insightRel a b) := by unfold insightRel; infer_instance

def onboardingInsight : AIInsight :=
  { type := .recommendation, title := "Start Your Journey", confidence := 1,
    actionable := some true, showActionButton := none, priority := .high, data := none }

def allInsights (used : List String) (habits : List HabitData) : List AIInsight :=
  analyzeWeekdayPatterns used habits
    ++ analyzeStreakVulnerability habits
    ++ findHabitCorrelations used habits
    ++ analyzeOptimalTiming used habits
    ++ generateSmartRecommendations used habits
    ++ habits.flatMap enhancedInsightOf
    ++ analyzeTimePatterns habits
    ++ habits.flatMap moodInsightOf
    ++ habits.flatMap trendInsightOf

def analyzeHabits (used : List String) (habits : List HabitData) : List AIInsight :=
  if habits.isEmpty then [onboardingInsight]
  else ((allInsights used habits).insertionSort insightRel).take 8

/-! ### 4.12 Tomorrow success predictor (`predictTomorrowSuccess`)

`new Date()` / tomorrow's weekday is an external input; it is passed in as the
parameter `tomorrowDow`. -/

structure TomorrowPrediction where
  probability : ℚ
  factors : List String
  recommendation : String
deriving DecidableEq, Repr

def recentEntriesOf (habit : HabitData) : List HabitEntry :=
  sortByDateDesc (sliceLast 14 habit.entries)

/-- Completion rate of the 7 most recent of the last-14 window (`slice(0, 7)`,
divided by `Math.min(7, recentEntries.length)`). -/
def recentCompletionRate (habit : HabitData) : ℚ :=
  (((recentEntriesOf habit).take 7).countP (·.completed) : ℚ)
    / ((min 7 (recentEntriesOf habit).length : Nat) : ℚ)

def dayOfWeekRate (habit : HabitData) (dow : Nat) : ℚ :=
  let dayOfWeekEntries := habit.entries.filter (fun e => dayOfWeek e.date == dow)
  if 3 ≤ dayOfWeekEntries.length then
    (dayOfWeekEntries.countP (·.completed) : ℚ) / (dayOfWeekEntries.length : ℚ)
  else 1/2

def insufficientTomorrow : TomorrowPrediction :=
  { probability := 1/2, factors := ["Insufficient data"],
    recommendation := "Keep tracking to get better predictions!" }

def predictTomorrowSuccess (habit : HabitData) (tomorrowDow : Nat) : TomorrowPrediction :=
  if (recentEntriesOf habit).length < 3 then insufficientTomorrow
  else
    let rcr := recentCompletionRate habit
    let dwr := dayOfWeekRate habit tomorrowDow
    let probability := rcr * (7/10) + dwr * (3/10)
    let factors :=
      (if rcr > 4/5 then ["Strong recent performance"] else [])
      ++ (if rcr < 2/5 then ["Recent struggles"] else [])
      ++ (if dwr > 7/10 then ["Good day-of-week track record"] else [])
      ++ (if dwr < 2/5 then ["Challenging day of week historically"] else [])
    let recommendation :=
      if probability < 2/5 then "Consider setting a reminder or simplifying this habit for tomorrow."
      else if probability > 4/5 then "You\x27re on track for success! Keep up the great work."
      else "Focus extra attention on this habit tomorrow to maintain momentum."
    { probability := max (1/10) (min (9/10) probability), factors, recommendation }

/-! ### 4.13 Weekly success predictor (`predictWeekSuccess`) -/

structure WeekPrediction where
  dailyProbabilities : List (String × ℚ)
  weeklyProbability : ℚ
  riskFactors : List String
  successFactors : List String
  recommendations : List String
deriving DecidableEq, Repr

def insufficientWeek : WeekPrediction :=
  { dailyProbabilities := [], weeklyProbability := 1/2,
    riskFactors := ["Insufficient historical data"], successFactors := [],
    recommendations := ["Continue tracking to get better predictions"] }

def weekDayRate2 (habit : HabitData) (d : Nat) : ℚ :=
  let dayEntries := habit.entries.filter (fun e => dayOfWeek e.date == d)
  if 2 ≤ dayEntries.length then
    (dayEntries.countP (·.completed) : ℚ) / (dayEntries.length : ℚ)
  else 1/2

def predictWeekSuccess (habit : HabitData) : WeekPrediction :=
  if (sortByDateDesc (sliceLast 30 habit.entries)).length < 7 then insufficientWeek
  else
    let dailyProbabilities := (List.range 7).map (fun d => (dayNameOf d, weekDayRate2 habit d))
    let weeklyProbability :=
      (dailyProbabilities.map (·.2)).sum / (dailyProbabilities.length : ℚ)
    if weeklyProbability < 1/2 then
      { dailyProbabilities, weeklyProbability,
        riskFactors := ["Low weekly completion rate"], successFactors := [],
        recommendations := ["Consider increasing the frequency or intensity of your habits"] }
    else
      { dailyProbabilities, weeklyProbability,
        riskFactors := [], successFactors := ["High weekly completion rate"],
        recommendations := ["Keep up the great work!"] }

/-! ### 4.14 Difficulty predictor (`predictHabitDifficulty`)

The target date is an external input, passed in as its weekday `targetDow` and
hour `targetHour`. -/

structure DifficultyPrediction where
  predictedDifficulty : ℚ
  factors : List String
  recommendations : List String
  confidence : ℚ
deriving DecidableEq, Repr

def insufficientDifficulty : DifficultyPrediction :=
  { predictedDifficulty := 5, factors := ["Insufficient difficulty data"],
    recommendations := ["Start tracking difficulty ratings for better predictions"],
    confidence := 3/10 }

def difficultyRecentOf (habit : HabitData) : List HabitEntry :=
  sortByDateDesc (sliceLast 30 (habit.entries.filter (fun e => e.completed && optNatTruthy e.difficulty)))

def predictHabitDifficulty (habit : HabitData) (targetDow targetHour : Nat) :
    DifficultyPrediction :=
  let recentEntries := difficultyRecentOf habit
  if recentEntries.length < 5 then insufficientDifficulty
  else
    let avgDifficulty := (recentEntries.map diffOr5).sum / (recentEntries.length : ℚ)
    let dayOfWeekEntries := habit.entries.filter
      (fun e => e.completed && optNatTruthy e.difficulty && (dayOfWeek e.date == targetDow))
    let dayAdjustment :=
      if 3 ≤ dayOfWeekEntries.length then
        (dayOfWeekEntries.map diffOr5).sum / (dayOfWeekEntries.length : ℚ) - avgDifficulty
      else 0
    let timeEntries := recentEntries.filter (·.completedAt.isSome)
    let timeAdjustment :=
      if 3 ≤ timeEntries.length then
        let similarTimeEntries := timeEntries.filter
          (fun e => ((entryHour e : ℤ) - (targetHour : ℤ)).natAbs ≤ 2)
        if 2 ≤ similarTimeEntries.length then
          (similarTimeEntries.map diffOr5).sum / (similarTimeEntries.length : ℚ) - avgDifficulty
        else 0
      else 0
    let predictedDifficulty := max 1 (min 10 (avgDifficulty + dayAdjustment + timeAdjustment))
    let factors :=
      (if dayAdjustment > 1 then ["This day of week tends to be more challenging"]
       else if dayAdjustment < -1 then ["This day of week is typically easier"] else [])
      ++ (if timeAdjustment > 1 then ["This time of day shows higher difficulty"]
          else if timeAdjustment < -1 then ["This time of day is optimal for this habit"] else [])
    let recommendations :=
      (if dayAdjustment > 1 then ["Consider preparing extra motivation for this day"]
       else if dayAdjustment < -1 then ["Good day to tackle this habit"] else [])
      ++ (if timeAdjustment > 1 then ["Consider scheduling this habit at a different time"] else [])
      ++ (if predictedDifficulty > 7 then ["Consider breaking this habit into smaller steps today"]
          else if predictedDifficulty < 4 then ["Great day to push yourself a bit harder"] else [])
    { predictedDifficulty := (jsRound (predictedDifficulty * 10) : ℚ) / 10,
      factors, recommendations,
      confidence := min (9/10) ((recentEntries.length : ℚ) / 20) }

/-! ### 4.15 Optimal schedule generator (`generateOptimalSchedule`) -/

structure ScheduleEntry where
  time : String
  habitId : String
  habitTitle : String
  predictedDifficulty : ℚ
  predictedSuccess : ℚ
  reason : String
deriving DecidableEq, Repr

structure BestTime where
  hour : Nat
  successRate : ℚ
  avgDifficulty : ℚ
deriving DecidableEq, Repr

structure TimingData where
  habit : HabitData
  bestTimes : List BestTime
  avgDifficulty : ℚ
deriving DecidableEq, Repr

def schedHourEntries (habit : HabitData) (h : Nat) : List HabitEntry :=
  habit.entries.filter (fun e => e.completedAt.map hourOfMs == some h)

/-- Per-hour stats: `total` over entries with a `completedAt` in this hour,
`completed`/difficulty sum only over the completed ones; the final
`avgDifficulty` is `stats.avgDifficulty / stats.completed || 5` (for
`completed = 0` the JavaScript quotient is `NaN`, and `NaN || 5` is `5`). -/
def schedHourAvgDifficulty (habit : HabitData) (h : Nat) : ℚ :=
  let completedList := (schedHourEntries habit h).filter (·.completed)
  if completedList.length = 0 then 5
  else qOr ((completedList.map diffOr5).sum / (completedList.length : ℚ)) 5

/-- `Object.entries(hourlyStats)` (ascending hour keys), filtered to hours with
at least 2 samples, stably sorted by success rate descending. -/
def bestTimesOf (habit : HabitData) : List BestTime :=
  ((List.range 24).filterMap (fun h =>
      let tot := (schedHourEntries habit h).length
      if 2 ≤ tot then
        some { hour := h,
               successRate := (((schedHourEntries habit h).filter (·.completed)).length : ℚ) / (tot : ℚ),
               avgDifficulty := schedHourAvgDifficulty habit h }
      else none)).insertionSort (fun a b => b.successRate ≤ a.successRate)

/-- Habit-level average difficulty:
`entries.filter(completed && difficulty).reduce((sum, e, _, arr) => sum + (e.difficulty || 5) / arr.length, 0) || 5`. -/
def habitAvgDifficulty (habit : HabitData) : ℚ :=
  let arr := habit.entries.filter (fun e => e.completed && optNatTruthy e.difficulty)
  qOr ((arr.map diffOr5).sum / (arr.length : ℚ)) 5

def habitTimingOf (habit : HabitData) : TimingData :=
  { habit, bestTimes := (bestTimesOf habit).take 3, avgDifficulty := habitAvgDifficulty habit }

/-- `habitTimingData`, indexed by position so that the `morningHabits.includes(h)`
reference-identity test can be modelled as index equality. -/
def timingIndexed (habits : List HabitData) : List (Nat × TimingData) :=
  (habits.map habitTimingOf).enum

def isMorningHour (t : BestTime) : Prop := 6 ≤ t.hour ∧ t.hour < 12

def isEveningHour (t : BestTime) : Prop := 17 ≤ t.hour ∧ t.hour < 21

instance (t : BestTime) : Decidable (isMorningHour t) := by unfold isMorningHour; infer_instance

instance (t : BestTime) : Decidable (isEveningHour t) := by unfold isEveningHour; infer_instance

def morningPool (habits : List HabitData) : List (Nat × TimingData) :=
  ((timingIndexed habits).filter (fun p => p.2.bestTimes.any (fun t => decide (isMorningHour t)))).insertionSort
    (fun a b => a.2.avgDifficulty ≤ b.2.avgDifficulty)

def eveningPool (habits : List HabitData) : List (Nat × TimingData) :=
  (((timingIndexed habits).filter (fun p => p.2.bestTimes.any (fun t => decide (isEveningHour t))))
    |>.filter (fun p => !((morningPool habits).any (fun q => q.1 == p.1)))).insertionSort
    (fun a b => b.2.avgDifficulty ≤ a.2.avgDifficulty)

def successReason (r : ℚ) : String :=
  "Your " ++ toString (jsRound (r * 100)) ++ "% success rate at this time"

def morningSlots (habits : List HabitData) : List ScheduleEntry :=
  ((morningPool habits).take 3).enum.filterMap (fun p =>
    let habitData := p.2.2
    let optimalTime? := (habitData.bestTimes.find? (fun t => decide (isMorningHour t))).orElse
      (fun _ => habitData.bestTimes.head?)
    optimalTime?.map (fun t =>
      { time := toString ((if t.hour = 0 then 8 else t.hour) + p.1) ++ ":00",
        habitId := habitData.habit.id, habitTitle := habitData.habit.title,
        predictedDifficulty := t.avgDifficulty,
        predictedSuccess := qOr t.successRate (7/10),
        reason := successReason (qOr t.successRate (7/10)) }))

def eveningSlots (habits : List HabitData) : List ScheduleEntry :=
  ((eveningPool habits).take 2).enum.filterMap (fun p =>
    let habitData := p.2.2
    let optimalTime? := (habitData.bestTimes.find? (fun t => decide (isEveningHour t))).orElse
      (fun _ => habitData.bestTimes.head?)
    optimalTime?.map (fun t =>
      { time := toString ((if t.hour = 0 then 19 else t.hour) + p.1) ++ ":00",
        habitId := habitData.habit.id, habitTitle := habitData.habit.title,
        predictedDifficulty := t.avgDifficulty,
        predictedSuccess := qOr t.successRate (3/5),
        reason := "Consistent performance at this time" }))

def digitVal (c : Char) : Option Nat :=
  if Char.ofNat 48 ≤ c ∧ c ≤ Char.ofNat 57 then some (c.toNat - 48) else none

/-- Decimal-digit parse (`parseInt` on the digit strings generated below; a
non-numeric prefix gives `none`, i.e. `NaN`). -/
def parseNatDigits (l : List Char) : Option Nat :=
  if l.isEmpty then none
  else l.foldl (fun acc c => acc.bind (fun n => (digitVal c).map (fun d => n * 10 + d))) (some 0)

/-- `parseInt(s.time.split(':')[0]) < 12` (`NaN < 12` is false). -/
def slotHourLt12 (s : ScheduleEntry) : Bool :=
  match parseNatDigits ((jsSplitColon s.time).headD "").data with
  | some n => n < 12
  | none => false

structure ScheduleResult where
  schedule : List ScheduleEntry
  tips : List String
deriving DecidableEq, Repr

def generateOptimalSchedule (habits : List HabitData) : ScheduleResult :=
  let schedule := morningSlots habits ++ eveningSlots habits
  let tips :=
    if 0 < schedule.length then
      ["Schedule is based on your historical performance patterns"] ++
      (let morningSched := schedule.filter (fun s => slotHourLt12 s)
       let avgMorningSuccess := (morningSched.map (·.predictedSuccess)).sum / (morningSched.length : ℚ)
       if avgMorningSuccess > 4/5 then ["You\x27re a morning person! Front-load your difficult habits"]
       else ["Consider lighter habits in the morning, save energy for later"])
    else ["Complete more habits to generate personalized scheduling recommendations"]
  { schedule, tips }

/-! ### 4.16 Personalized coaching generator (`generatePersonalizedCoaching`)

`Date.now()` is an external input, passed in as `nowMs` (epoch milliseconds);
an entry is recent when `new Date(e.date) > new Date(nowMs - 7 days)`. -/

structure CoachingResult where
  motivationalMessage : String
  focusArea : String
  actionPlan : List String
  encouragement : String
  weeklyGoals : List String
deriving DecidableEq, Repr

def coachingRecentEntries (habits : List HabitData) (nowMs : ℤ) : List HabitEntry :=
  (habits.flatMap (·.entries)).filter
    (fun e => decide (nowMs - 7 * 24 * 60 * 60 * 1000 < (e.date : ℤ) * 86400000))

def coachCompletionRate (habits : List HabitData) (nowMs : ℤ) : ℚ :=
  let recentEntries := coachingRecentEntries habits nowMs
  if 0 < recentEntries.length then
    (recentEntries.countP (·.completed) : ℚ) / (recentEntries.length : ℚ)
  else 0

def coachAvgMood (habits : List HabitData) (nowMs : ℤ) : ℚ :=
  let arr := (coachingRecentEntries habits nowMs).filter (fun e => e.completed && optNatTruthy e.mood)
  qOr ((arr.map moodOr5).sum / (arr.length : ℚ)) 5

def coachAvgDifficulty (habits : List HabitData) (nowMs : ℤ) : ℚ :=
  let arr := (coachingRecentEntries habits nowMs).filter (fun e => e.completed && optNatTruthy e.difficulty)
  qOr ((arr.map diffOr5).sum / (arr.length : ℚ)) 5

def moodBoostItem : String := "Focus on habits that boost your mood first"

def generatePersonalizedCoaching (habits : List HabitData) (nowMs : ℤ) : CoachingResult :=
  let completionRate := coachCompletionRate habits nowMs
  let avgMood := coachAvgMood habits nowMs
  let avgDifficulty := coachAvgDifficulty habits nowMs
  let tier : (String × String × String) :=
    if completionRate > 4/5 then
      ("You\x27re absolutely crushing it! Your consistency is inspiring.",
       "You\x27ve built incredible momentum - keep riding this wave!",
       "Habit Optimization")
    else if completionRate > 3/5 then
      ("Solid progress! You\x27re building strong foundations.",
       "Every habit you complete is an investment in your future self.",
       "Consistency Building")
    else if completionRate > 2/5 then
      ("You\x27re learning and growing. Progress isn\x27t always linear.",
       "Small steps still move you forward. You\x27ve got this!",
       "Momentum Recovery")
    else
      ("Every expert was once a beginner. Today is a fresh start.",
       "Focus on one habit at a time. Small wins build big victories.",
       "Foundation Building")
  let basePlan :=
    if completionRate < 1/2 then
      ["Choose your easiest habit and commit to it for 3 days straight",
       "Set reminders for your most important habit",
       "Prepare your environment the night before"]
    else if completionRate < 4/5 then
      ["Link your newest habit to an existing routine",
       "Focus on your top 3 priority habits this week",
       "Experiment with different times of day"]
    else
      ["Consider adding a challenging new habit",
       "Mentor someone else in habit building",
       "Optimize your routine for maximum efficiency"]
  let baseGoals :=
    if completionRate < 1/2 then
      ["Complete at least 3 habits this week", "Track your mood after each completion"]
    else if completionRate < 4/5 then
      ["Achieve 70% completion rate across all habits", "Try habit stacking with your strongest habit"]
    else
      ["Maintain your excellent streak", "Help optimize your habit timing based on energy"]
  let actionPlan := (if avgMood < 6 then [moodBoostItem] else []) ++ basePlan
    ++ (if avgDifficulty > 7 then ["Consider breaking down difficult habits into smaller steps"] else [])
  let weeklyGoals := baseGoals
    ++ (if avgMood < 6 then ["Aim for an average mood of 7+ after habit completion"] else [])
    ++ (if avgDifficulty > 7 then ["Reduce average difficulty to 6 or below"] else [])
  { motivationalMessage := tier.1, focusArea := tier.2.2, actionPlan,
    encouragement := tier.2.1, weeklyGoals }

/-! ## Helper lemmas -/

theorem sliceLast_of_le {l : List α} {n : Nat} (h : l.length ≤ n) : sliceLast n l = l := by
  unfold sliceLast
  rw [Nat.sub_eq_zero_of_le h, List.drop_zero]

theorem mem_dedupFirstAux [DecidableEq α] {a : α} :
    ∀ (seen l : List α), a ∈ dedupFirstAux seen l ↔ a ∈ l ∧ a ∉ seen := by
  intro seen l
  induction l generalizing seen with
  | nil => simp [dedupFirstAux]
  | cons b t ih =>
    by_cases hb : b ∈ seen
    · rw [dedupFirstAux, if_pos hb, ih, List.mem_cons]
      by_cases hab : a = b
      · subst hab; tauto
      · tauto
    · rw [dedupFirstAux, if_neg hb, List.mem_cons, ih]
      simp only [List.mem_cons]
      by_cases hab : a = b
      · subst hab; tauto
      · tauto

theorem mem_dedupFirst [DecidableEq α] {a : α} {l : List α} :
    a ∈ dedupFirst l ↔ a ∈ l := by
  unfold dedupFirst
  rw [mem_dedupFirstAux]
  simp

theorem nodup_dedupFirstAux [DecidableEq α] :
    ∀ (seen l : List α), (dedupFirstAux seen l).Nodup := by
  intro seen l
  induction l generalizing seen with
  | nil => exact List.nodup_nil
  | cons b t ih =>
    simp only [dedupFirstAux]
    split
    · exact ih seen
    · refine List.nodup_cons.2 ⟨fun hb => ?_, ih (b :: seen)⟩
      exact ((mem_dedupFirstAux (b :: seen) t).1 hb).2 (List.mem_cons_self _ _)

theorem nodup_dedupFirst [DecidableEq α] (l : List α) : (dedupFirst l).Nodup :=
  nodup_dedupFirstAux [] l

theorem mem_if_singleton {p : Prop} [Decidable p] {x i : α}
    (h : i ∈ (if p then [x] else ([] : List α))) : i = x := by
  split at h
  · simpa using h
  · simp at h

/-! ## Claim C6 -/

/-- C6: when the input habit list is empty, `analyzeHabits` returns exactly one
fixed onboarding insight, and that insight has confidence 1.0. -/
theorem analyzeHabits_empty_onboarding (used : List String) :
    analyzeHabits used [] = [onboardingInsight] ∧ onboardingInsight.confidence = 1 :=
  ⟨rfl, rfl⟩

/-! ## Claim C4 -/

/-- C4: `analyzeHabits` is deterministic: two runs on the same habit snapshot
with the same recommendation-usage set produce identical ordered insight lists
(the embedding is a pure function of exactly these two inputs; nothing else in
the subsystem, in particular no clock or randomness, reaches `analyzeHabits`). -/
theorem analyzeHabits_deterministic (habits₁ habits₂ : List HabitData)
    (used₁ used₂ : List String) (hh : habits₁ = habits₂) (hu : used₁ = used₂) :
    analyzeHabits used₁ habits₁ = analyzeHabits used₂ habits₂ := by
  subst hh; subst hu; rfl

theorem analyzeHabits_deterministic_witness :
    analyzeHabits ["day_Monday"] [] = analyzeHabits ["day_Monday"] [] :=
  analyzeHabits_deterministic [] [] ["day_Monday"] ["day_Monday"] rfl rfl

/-! ## Claim C2 -/

/-- C2: `predictTomorrowSuccess` always returns a probability in `[0.1, 0.9]`;
with fewer than 3 entries in the last-14 window it returns exactly the
insufficient-data result (probability 0.5, factors `["Insufficient data"]`);
otherwise the probability is `clamp(0.1, 0.9, recentRate*0.7 + dayOfWeekRate*0.3)`. -/
theorem predictTomorrowSuccess_spec (habit : HabitData) (tomorrowDow : Nat) :
    (1/10 ≤ (predictTomorrowSuccess habit tomorrowDow).probability
      ∧ (predictTomorrowSuccess habit tomorrowDow).probability ≤ 9/10)
    ∧ ((sliceLast 14 habit.entries).length < 3 →
        predictTomorrowSuccess habit tomorrowDow = insufficientTomorrow)
    ∧ (3 ≤ (sliceLast 14 habit.entries).length →
        (predictTomorrowSuccess habit tomorrowDow).probability
          = max (1/10) (min (9/10)
              (recentCompletionRate habit * (7/10)
                + dayOfWeekRate habit tomorrowDow * (3/10)))) := by
  have hlen : (recentEntriesOf habit).length = (sliceLast 14 habit.entries).length := by
    unfold recentEntriesOf sortByDateDesc
    exact List.length_insertionSort _ _
  refine ⟨?_, ?_, ?_⟩
  · unfold predictTomorrowSuccess
    split
    · constructor <;> norm_num [insufficientTomorrow]
    · constructor
      · exact le_max_left _ _
      · exact max_le (by norm_num) (min_le_left _ _)
  · intro h
    unfold predictTomorrowSuccess
    rw [if_pos (by omega : (recentEntriesOf habit).length < 3)]
  · intro h
    unfold predictTomorrowSuccess
    rw [if_neg (by omega : ¬ (recentEntriesOf habit).length < 3)]

theorem predictTomorrowSuccess_spec_witness :
    predictTomorrowSuccess { id := "w2", title := "W2", entries := [], category := none } 0
      = insufficientTomorrow :=
  (predictTomorrowSuccess_spec { id := "w2", title := "W2", entries := [], category := none }
    0).2.1 (by decide)

/-! ## Claim C10 -/

/-- C10: when no entry of the 7-day window is completed with a (truthy) mood
rating, `generatePersonalizedCoaching` falls back to the default average mood 5,
which is below the 6 threshold, so the returned action plan always starts with
the mood-boosting item. -/
theorem coaching_mood_default_first (habits : List HabitData) (nowMs : ℤ)
    (h : (coachingRecentEntries habits nowMs).filter
        (fun e => e.completed && optNatTruthy e.mood) = []) :
    coachAvgMood habits nowMs = 5
      ∧ ((generatePersonalizedCoaching habits nowMs).actionPlan).head? = some moodBoostItem := by
  have hm : coachAvgMood habits nowMs = 5 := by
    unfold coachAvgMood
    rw [h]
    simp [qOr]
  refine ⟨hm, ?_⟩
  unfold generatePersonalizedCoaching
  rw [hm]
  norm_num

theorem coaching_mood_default_first_witness :
    coachAvgMood [] 0 = 5
      ∧ ((generatePersonalizedCoaching [] 0).actionPlan).head? = some moodBoostItem :=
  coaching_mood_default_first [] 0 rfl

/-! ## Claim C3 -/

/-- A habit with an empty entry list in the "Health" category: sparser than
every analyzer's minimum-sample guard. -/
def sparseHealthHabit : HabitData :=
  { id := "h1", title := "Exercise", entries := [], category := some "Health" }

unseal Rat.mul Rat.inv Rat.add Rat.sub in
/-- C3 counterexample: on a habit list whose only habit has no entries at all,
`analyzeHabits` returns a non-empty insight list whose single element is a
category-gap suggestion, not an empty result and not an insufficient-data
label. -/
theorem analyzeHabits_sparse_nonempty_cex :
    sparseHealthHabit.entries = []
      ∧ (analyzeHabits [] [sparseHealthHabit]).map (·.title)
          = ["Suggested: Drink 8 glasses of water"]
      ∧ analyzeHabits [] [sparseHealthHabit] ≠ [] := by
  decide

/-- C3 (amended): the three predictors return their explicitly labeled
insufficient-data results whenever the input is below their minimum-sample
guards (`predictTomorrowSuccess` below 3 entries in the last-14 window,
`predictWeekSuccess` below 7 in the last-30 window, `predictHabitDifficulty`
below 5 completed difficulty-rated entries in its last-30 window). -/
theorem predictors_insufficient_guards :
    (∀ (habit : HabitData) (dow : Nat), (sliceLast 14 habit.entries).length < 3 →
        predictTomorrowSuccess habit dow = insufficientTomorrow)
    ∧ (∀ habit : HabitData, (sliceLast 30 habit.entries).length < 7 →
        predictWeekSuccess habit = insufficientWeek)
    ∧ (∀ (habit : HabitData) (targetDow targetHour : Nat),
        (sliceLast 30 (habit.entries.filter
            (fun e => e.completed && optNatTruthy e.difficulty))).length < 5 →
        predictHabitDifficulty habit targetDow targetHour = insufficientDifficulty) := by
  refine ⟨?_, ?_, ?_⟩
  · intro habit dow h
    have hlen : (recentEntriesOf habit).length = (sliceLast 14 habit.entries).length := by
      unfold recentEntriesOf sortByDateDesc
      exact List.length_insertionSort _ _
    unfold predictTomorrowSuccess
    rw [if_pos (by omega : (recentEntriesOf habit).length < 3)]
  · intro habit h
    have hlen : (sortByDateDesc (sliceLast 30 habit.entries)).length
        = (sliceLast 30 habit.entries).length := by
      unfold sortByDateDesc
      exact List.length_insertionSort _ _
    unfold predictWeekSuccess
    rw [if_pos (by omega : (sortByDateDesc (sliceLast 30 habit.entries)).length < 7)]
  · intro habit targetDow targetHour h
    have hlen : (difficultyRecentOf habit).length
        = (sliceLast 30 (habit.entries.filter
            (fun e => e.completed && optNatTruthy e.difficulty))).length := by
      unfold difficultyRecentOf sortByDateDesc
      exact List.length_insertionSort _ _
    unfold predictHabitDifficulty
    rw [if_pos (by omega : (difficultyRecentOf habit).length < 5)]

theorem predictors_insufficient_guards_witness :
    predictTomorrowSuccess sparseHealthHabit 2 = insufficientTomorrow
      ∧ predictWeekSuccess sparseHealthHabit = insufficientWeek
      ∧ predictHabitDifficulty sparseHealthHabit 2 9 = insufficientDifficulty :=
  ⟨predictors_insufficient_guards.1 sparseHealthHabit 2 (by decide),
   predictors_insufficient_guards.2.1 sparseHealthHabit (by decide),
   predictors_insufficient_guards.2.2 sparseHealthHabit 2 9 (by decide)⟩

/-! ## Claim C7 -/

/-- Two date-descending sorted lists that are permutations of each other and
have pairwise-distinct dates are equal. -/
theorem sorted_eq_of_perm_of_nodup_date {l₁ l₂ : List HabitEntry} (hp : l₁.Perm l₂)
    (hs₁ : l₁.Pairwise (fun a b => b.date ≤ a.date))
    (hs₂ : l₂.Pairwise (fun a b => b.date ≤ a.date))
    (hnd : (l₁.map (·.date)).Nodup) : l₁ = l₂ := by
  induction l₁ generalizing l₂ with
  | nil => exact (hp.symm.eq_nil).symm
  | cons a t₁ ih =>
    match l₂ with
    | [] => exact absurd hp.eq_nil (by simp)
    | b :: t₂ =>
      by_cases hab : a = b
      · subst hab
        have ht : t₁ = t₂ := by
          refine ih hp.cons_inv (List.pairwise_cons.1 hs₁).2 (List.pairwise_cons.1 hs₂).2 ?_
          exact (List.nodup_cons.1 (by simpa using hnd)).2
        rw [ht]
      · exfalso
        have ha2 : a ∈ t₂ := by
          have := hp.subset (List.mem_cons_self a t₁)
          rcases List.mem_cons.1 this with h | h
          · exact absurd h hab
          · exact h
        have hb1 : b ∈ t₁ := by
          have := hp.symm.subset (List.mem_cons_self b t₂)
          rcases List.mem_cons.1 this with h | h
          · exact absurd h.symm hab
          · exact h
        have h1 : b.date ≤ a.date := (List.pairwise_cons.1 hs₁).1 b hb1
        have h2 : a.date ≤ b.date := (List.pairwise_cons.1 hs₂).1 a ha2
        have heq : a.date = b.date := le_antisymm h2 h1
        have : a.date ∉ t₁.map (·.date) := (List.nodup_cons.1 (by simpa using hnd)).1
        exact this (heq ▸ List.mem_map_of_mem (·.date) hb1)

theorem sortByDateDesc_eq_of_perm {l₁ l₂ : List HabitEntry} (hp : l₁.Perm l₂)
    (hnd : (l₁.map (·.date)).Nodup) : sortByDateDesc l₁ = sortByDateDesc l₂ := by
  haveI : IsTotal HabitEntry (fun a b => b.date ≤ a.date) := ⟨fun a b => le_total b.date a.date⟩
  haveI : IsTrans HabitEntry (fun a b => b.date ≤ a.date) :=
    ⟨fun _ _ _ h1 h2 => le_trans h2 h1⟩
  apply sorted_eq_of_perm_of_nodup_date
  · exact ((List.perm_insertionSort _ l₁).trans hp).trans (List.perm_insertionSort _ l₂).symm
  · exact List.sorted_insertionSort _ l₁
  · exact List.sorted_insertionSort _ l₂
  · exact (((List.perm_insertionSort (fun a b => b.date ≤ a.date) l₁).map
      (·.date)).nodup_iff).2 hnd

def c7Entry (d : Nat) (c : Bool) : HabitEntry :=
  { date := d, completed := c, completedAt := none, timeOfDay := none, mood := none,
    difficulty := none }

/-- 15 entries, days 0..14, in chronological insertion order: days 0..11
completed, days 12..14 missed. -/
def c7EntriesChrono : List HabitEntry :=
  (List.range 15).map (fun i => c7Entry i (decide (i ≤ 11)))

def c7HabitChrono : HabitData :=
  { id := "A", title := "A", entries := c7EntriesChrono, category := none }

/-- The same 15 entries with the newest one moved to the front of the array. -/
def c7HabitRotated : HabitData :=
  { id := "A", title := "A", entries := (c7EntriesChrono.drop 14) ++ (c7EntriesChrono.take 14),
    category := none }

unseal Rat.mul Rat.inv Rat.add Rat.sub in
/-- C7 counterexample: a habit with 15 entries and a rotation of the same
entries (same id and title): the streak vulnerability analyzer emits a
"Streak at Risk" insight for the chronological ordering and nothing for the
rotated ordering, because `slice(-14)` selects the last 14 entries in array
order before the chronological sort. -/
theorem streak_order_dependent_cex :
    c7HabitRotated.entries.Perm c7HabitChrono.entries
      ∧ c7HabitRotated.id = c7HabitChrono.id ∧ c7HabitRotated.title = c7HabitChrono.title
      ∧ (streakInsightOf c7HabitChrono).length = 1
      ∧ streakInsightOf c7HabitRotated = []
      ∧ streakInsightOf c7HabitChrono ≠ streakInsightOf c7HabitRotated := by
  decide

/-- C7 (amended): for habits with at most 14 entries and pairwise-distinct
entry dates, the order of the entries array is irrelevant to the streak
vulnerability analyzer and to `predictTomorrowSuccess`; in general `slice(-14)`
takes the last 14 entries in array order before sorting, so longer entry arrays
are not order-insensitive. -/
theorem order_invariance_small (i ti : String) (cat : Option String)
    (es₁ es₂ : List HabitEntry) (dow : Nat)
    (hperm : es₁.Perm es₂) (hlen : es₁.length ≤ 14) (hnd : (es₁.map (·.date)).Nodup) :
    streakInsightOf ⟨i, ti, es₁, cat⟩ = streakInsightOf ⟨i, ti, es₂, cat⟩
    ∧ predictTomorrowSuccess ⟨i, ti, es₁, cat⟩ dow
        = predictTomorrowSuccess ⟨i, ti, es₂, cat⟩ dow := by
  have hlen₂ : es₂.length ≤ 14 := hperm.length_eq ▸ hlen
  have hsorted : sortByDateDesc es₁ = sortByDateDesc es₂ := sortByDateDesc_eq_of_perm hperm hnd
  have hslice : sortByDateDesc (sliceLast 14 es₁) = sortByDateDesc (sliceLast 14 es₂) := by
    rw [sliceLast_of_le hlen, sliceLast_of_le hlen₂, hsorted]
  have hfilter := hperm.filter (fun e => dayOfWeek e.date == dow)
  constructor
  · unfold streakInsightOf
    dsimp only
    rw [hslice]
  · unfold predictTomorrowSuccess recentCompletionRate dayOfWeekRate recentEntriesOf
    dsimp only
    rw [hslice, hfilter.countP_eq, hfilter.length_eq]

theorem order_invariance_small_witness :
    streakInsightOf ⟨"w7", "W7", [c7Entry 3 true, c7Entry 5 false], none⟩
        = streakInsightOf ⟨"w7", "W7", [c7Entry 5 false, c7Entry 3 true], none⟩
      ∧ predictTomorrowSuccess ⟨"w7", "W7", [c7Entry 3 true, c7Entry 5 false], none⟩ 1
          = predictTomorrowSuccess ⟨"w7", "W7", [c7Entry 5 false, c7Entry 3 true], none⟩ 1 :=
  order_invariance_small "w7" "W7" none
    [c7Entry 3 true, c7Entry 5 false] [c7Entry 5 false, c7Entry 3 true] 1
    (by decide) (by decide) (by decide)

/-! ## Claim C8 -/

/-- Bucket success rate as the specification words it: completed entries
carrying this `timeOfDay` over all entries (completed or not) carrying it.
(The source instead counts only completed entries in both numerator and
denominator, see `todCompletedOnlyCount` / `timeOfDayPerformance`.) -/
def specBucketRate (habits : List HabitData) (p : TimeOfDay) : ℚ :=
  (todCompleted habits p : ℚ) / (todTotal habits p : ℚ)

def c8Entry (d : Nat) (c : Bool) (p : TimeOfDay) : HabitEntry :=
  { date := d, completed := c, completedAt := none, timeOfDay := some p, mood := none,
    difficulty := none }

/-- 3 completed + 5 uncompleted morning entries and 3 completed evening
entries: the true morning success rate is 3/8, the true evening rate is 1. -/
def c8Habit : HabitData :=
  { id := "t", title := "T",
    entries := [c8Entry 0 true .morning, c8Entry 1 true .morning, c8Entry 2 true .morning,
                c8Entry 3 false .morning, c8Entry 4 false .morning, c8Entry 5 false .morning,
                c8Entry 6 false .morning, c8Entry 7 false .morning,
                c8Entry 8 true .evening, c8Entry 9 true .evening, c8Entry 10 true .evening],
    category := none }

unseal Rat.mul Rat.inv Rat.add Rat.sub in
/-- C8: the explicit-`timeOfDay` path of the timing optimizer reports the
morning bucket with rate 1 on `c8Habit`, although the bucket success rate as
the claim defines it is 3/8 for morning and 1 for evening, so neither the
reported bucket nor its rate matches the highest-success-rate bucket: the code
counts only completed entries in both `completed` and `total`. -/
theorem timeOfDay_best_bucket_bug :
    (bestPeriodInsight [c8Habit]).map (·.data)
        = [some (.bestPeriodData .morning 1)]
      ∧ specBucketRate [c8Habit] .morning = 3/8
      ∧ specBucketRate [c8Habit] .evening = 1
      ∧ specBucketRate [c8Habit] .morning < specBucketRate [c8Habit] .evening
      ∧ todTotal [c8Habit] .morning = 8 ∧ todCompletedOnlyCount [c8Habit] .morning = 3 := by
  decide

/-! ## Claim C9 -/

def c9Entry (d : Nat) (c : Bool) (hr : Nat) (diff : Nat) : HabitEntry :=
  { date := d, completed := c, completedAt := some (hr * 3600000), timeOfDay := none,
    mood := none, difficulty := some diff }

def c9HabitA : HabitData :=
  { id := "A", title := "A", entries := [c9Entry 0 true 8 1, c9Entry 1 true 8 1], category := none }

def c9HabitB : HabitData :=
  { id := "B", title := "B", entries := [c9Entry 0 true 8 2, c9Entry 1 true 8 2], category := none }

def c9HabitC : HabitData :=
  { id := "C", title := "C", entries := [c9Entry 0 true 8 3, c9Entry 1 true 8 3], category := none }

/-- A habit whose best hour (highest success rate) is 18, with a weaker hour-8
slot that still places it in the morning candidate pool. -/
def c9HabitD : HabitData :=
  { id := "D", title := "D",
    entries := [c9Entry 0 true 18 4, c9Entry 1 true 18 4, c9Entry 2 true 8 4,
                c9Entry 3 false 8 4],
    category := none }

def c9Habits : List HabitData := [c9HabitA, c9HabitB, c9HabitC, c9HabitD]

unseal Rat.mul Rat.inv Rat.add Rat.sub in
/-- C9 counterexample: habit D's best hour is 18 (in 17–21), it is not assigned
a morning slot (A, B, C take the 3 morning slots), and no evening slot is used
at all — yet D is not scheduled anywhere, because the code excludes every
member of the morning candidate pool from the evening pool, scheduled or not
(and D is in the morning pool through its second-best hour 8). -/
theorem schedule_evening_exclusion_cex :
    ((bestTimesOf c9HabitD).map (·.hour)).head? = some 18
      ∧ (generateOptimalSchedule c9Habits).schedule.map (·.habitId) = ["A", "B", "C"]
      ∧ eveningSlots c9Habits = []
      ∧ (morningPool c9Habits).map (·.1) = [0, 1, 2, 3]
      ∧ eveningPool c9Habits = [] := by
  decide

/-- C9 (amended): the morning pool consists of habits with any top-3 hour in
6–12 sorted ascending by average difficulty and at most 3 receive morning
slots; the evening pool consists of habits with a top-3 hour in 17–21 that are
not in the morning pool at all (not merely unscheduled), sorted descending by
average difficulty, and at most 2 receive evening slots. -/
theorem schedule_pools_spec (habits : List HabitData) :
    (generateOptimalSchedule habits).schedule = morningSlots habits ++ eveningSlots habits
    ∧ (morningSlots habits).length ≤ 3
    ∧ (eveningSlots habits).length ≤ 2
    ∧ List.Pairwise (fun (a b : Nat × TimingData) => a.2.avgDifficulty ≤ b.2.avgDifficulty)
        (morningPool habits)
    ∧ List.Pairwise (fun (a b : Nat × TimingData) => b.2.avgDifficulty ≤ a.2.avgDifficulty)
        (eveningPool habits)
    ∧ (eveningPool habits).all
        (fun p => !((morningPool habits).any (fun q => q.1 == p.1))) = true := by
  refine ⟨rfl, ?_, ?_, ?_, ?_, ?_⟩
  · calc (morningSlots habits).length
        ≤ ((morningPool habits).take 3).enum.length := List.length_filterMap_le _ _
      _ = ((morningPool habits).take 3).length := List.enum_length
      _ ≤ 3 := List.length_take_le _ _
  · calc (eveningSlots habits).length
        ≤ ((eveningPool habits).take 2).enum.length := List.length_filterMap_le _ _
      _ = ((eveningPool habits).take 2).length := List.enum_length
      _ ≤ 2 := List.length_take_le _ _
  · haveI : IsTotal (Nat × TimingData) (fun a b => a.2.avgDifficulty ≤ b.2.avgDifficulty) :=
      ⟨fun a b => le_total _ _⟩
    haveI : IsTrans (Nat × TimingData) (fun a b => a.2.avgDifficulty ≤ b.2.avgDifficulty) :=
      ⟨fun _ _ _ h1 h2 => le_trans h1 h2⟩
    exact List.sorted_insertionSort _ _
  · haveI : IsTotal (Nat × TimingData) (fun a b => b.2.avgDifficulty ≤ a.2.avgDifficulty) :=
      ⟨fun a b => le_total _ _⟩
    haveI : IsTrans (Nat × TimingData) (fun a b => b.2.avgDifficulty ≤ a.2.avgDifficulty) :=
      ⟨fun _ _ _ h1 h2 => le_trans h2 h1⟩
    exact List.sorted_insertionSort _ _
  · rw [List.all_eq_true]
    intro p hp
    have hp' : p ∈ ((timingIndexed habits).filter
        (fun p => p.2.bestTimes.any (fun t => decide (isEveningHour t)))).filter
        (fun p => !((morningPool habits).any (fun q => q.1 == p.1))) := by
      unfold eveningPool at hp
      exact (List.mem_insertionSort _).1 hp
    exact (List.mem_filter.1 hp').2

/-! ## Claim C1 -/

def confOK (i : AIInsight) : Prop := 0 ≤ i.confidence ∧ i.confidence ≤ 1

theorem calculateHabitCorrelation_nonneg (h1 h2 : HabitData) :
    0 ≤ calculateHabitCorrelation h1 h2 := by
  simp only [calculateHabitCorrelation]
  split
  · norm_num
  · split
    · exact div_nonneg (Nat.cast_nonneg _) (Nat.cast_nonneg _)
    · norm_num

theorem calculateHabitCorrelation_le_one (h1 h2 : HabitData) :
    calculateHabitCorrelation h1 h2 ≤ 1 := by
  simp only [calculateHabitCorrelation]
  split
  · norm_num
  · split
    · rename_i heither
      rw [div_le_one (by exact_mod_cast heither)]
      have hmono := List.countP_mono_left (l := commonDates h1 h2)
        (p := fun d => completedOn h1 d && completedOn h2 d)
        (q := fun d => completedOn h1 d || completedOn h2 d)
        (fun d _ hd => by
          simp only [Bool.and_eq_true] at hd
          simp [hd.1])
      exact_mod_cast hmono
    · norm_num

theorem confOK_weekday (used : List String) (habits : List HabitData) :
    ∀ i ∈ analyzeWeekdayPatterns used habits, confOK i := by
  intro i hi
  simp only [analyzeWeekdayPatterns] at hi
  split at hi
  · simp at hi
  · simp only [List.mem_append] at hi
    rcases hi with (hi | hi) | hi <;>
      (have hx := mem_if_singleton hi; subst hx; exact ⟨by norm_num, by norm_num⟩)

theorem confOK_streak (h : HabitData) : ∀ i ∈ streakInsightOf h, confOK i := by
  intro i hi
  simp only [streakInsightOf] at hi
  split at hi
  · simp at hi
  · have hx := mem_if_singleton hi
    subst hx
    exact ⟨by norm_num, by norm_num⟩

theorem confOK_corr (used : List String) :
    ∀ habits, ∀ i ∈ findHabitCorrelations used habits, confOK i := by
  intro habits
  induction habits with
  | nil => intro i hi; simp [findHabitCorrelations] at hi
  | cons h t ih =>
    intro i hi
    simp only [findHabitCorrelations, List.mem_append] at hi
    rcases hi with hi | hi
    · obtain ⟨h2, _, hi2⟩ := List.mem_flatMap.1 hi
      simp only [corrPairInsight] at hi2
      have hx := mem_if_singleton hi2
      subst hx
      exact ⟨calculateHabitCorrelation_nonneg _ _, calculateHabitCorrelation_le_one _ _⟩
    · exact ih i hi

theorem confOK_timing (used : List String) (habits : List HabitData) :
    ∀ i ∈ analyzeOptimalTiming used habits, confOK i := by
  intro i hi
  simp only [analyzeOptimalTiming, List.mem_append] at hi
  rcases hi with (hi | hi) | hi
  · simp only [peakHoursInsight] at hi
    split at hi
    · have hx := mem_if_singleton hi
      subst hx
      exact ⟨by norm_num, by norm_num⟩
    · simp at hi
  · simp only [bestPeriodInsight] at hi
    split at hi
    · split at hi
      · simp at hi
      · simp only [List.mem_singleton] at hi
        subst hi
        exact ⟨by norm_num, by norm_num⟩
    · simp at hi
  · simp only [analyzeEnergyPatterns] at hi
    split at hi
    · simp at hi
    · split at hi
      · have hx := mem_if_singleton hi
        subst hx
        exact ⟨by norm_num, by norm_num⟩
      · simp at hi

theorem confOK_rec (habits : List HabitData) :
    ∀ r ∈ getComplementaryHabits habits, 0 ≤ r.confidence ∧ r.confidence ≤ 1 := by
  intro r hr
  simp only [getComplementaryHabits] at hr
  have hr' := List.Sublist.mem hr (List.take_sublist _ _)
  simp only [List.mem_append] at hr'
  rcases hr' with (h | h) | h <;>
    (have hx := mem_if_singleton h; subst hx; exact ⟨by norm_num, by norm_num⟩)

theorem confOK_suggestions (used : List String) (habits : List HabitData) :
    ∀ i ∈ suggestionInsights used habits, confOK i := by
  intro i hi
  simp only [suggestionInsights] at hi
  obtain ⟨r, hr, hi2⟩ := List.mem_flatMap.1 hi
  have hx := mem_if_singleton hi2
  subst hx
  exact confOK_rec habits r hr

theorem confOK_stacking (used : List String) (habits : List HabitData) :
    ∀ i ∈ generateHabitStackingRecommendations used habits, confOK i := by
  intro i hi
  simp only [generateHabitStackingRecommendations] at hi
  obtain ⟨p, _, hi2⟩ := List.mem_flatMap.1 hi
  split at hi2
  · split at hi2
    · have hx := mem_if_singleton hi2
      subst hx
      refine ⟨le_min (by norm_num) (by positivity), le_trans (min_le_left _ _) (by norm_num)⟩
    · simp at hi2
  · simp at hi2

theorem confOK_difficultyAdj (h : HabitData) : ∀ i ∈ difficultyAdjInsightOf h, confOK i := by
  intro i hi
  simp only [difficultyAdjInsightOf] at hi
  split at hi
  · simp at hi
  · split at hi
    · simp only [List.mem_singleton] at hi
      subst hi
      exact ⟨by norm_num, by norm_num⟩
    · split at hi
      · simp only [List.mem_singleton] at hi
        subst hi
        exact ⟨by norm_num, by norm_num⟩
      · simp at hi

theorem confOK_recovery (h : HabitData) : ∀ i ∈ recoveryInsightOf h, confOK i := by
  intro i hi
  simp only [recoveryInsightOf] at hi
  split at hi
  · simp at hi
  · have hx := mem_if_singleton hi
    subst hx
    exact ⟨by norm_num, by norm_num⟩

theorem confOK_enhanced (h : HabitData) : ∀ i ∈ enhancedInsightOf h, confOK i := by
  intro i hi
  simp only [enhancedInsightOf] at hi
  split at hi
  · simp at hi
  · split at hi
    · simp only [List.mem_singleton] at hi
      subst hi
      exact ⟨by norm_num, by norm_num⟩
    · simp at hi

theorem confOK_timePatterns (habits : List HabitData) :
    ∀ i ∈ analyzeTimePatterns habits, confOK i := by
  intro i hi
  simp only [analyzeTimePatterns] at hi
  have hx := mem_if_singleton hi
  subst hx
  exact ⟨by norm_num, by norm_num⟩

theorem confOK_mood (h : HabitData) : ∀ i ∈ moodInsightOf h, confOK i := by
  intro i hi
  simp only [moodInsightOf] at hi
  split at hi
  · simp at hi
  · split at hi
    · simp only [List.mem_singleton] at hi
      subst hi
      exact ⟨by norm_num, by norm_num⟩
    · split at hi
      · simp only [List.mem_singleton] at hi
        subst hi
        exact ⟨by norm_num, by norm_num⟩
      · simp at hi

theorem confOK_trend (h : HabitData) : ∀ i ∈ trendInsightOf h, confOK i := by
  intro i hi
  simp only [trendInsightOf] at hi
  split at hi
  · simp at hi
  · split at hi
    · simp only [List.mem_singleton] at hi
      subst hi
      exact ⟨by norm_num, by norm_num⟩
    · split at hi
      · simp only [List.mem_singleton] at hi
        subst hi
        exact ⟨by norm_num, by norm_num⟩
      · simp at hi

theorem confOK_allInsights (used : List String) (habits : List HabitData) :
    ∀ i ∈ allInsights used habits, confOK i := by
  intro i hi
  simp only [allInsights, generateSmartRecommendations, List.mem_append] at hi
  rcases hi with (((((((hi | hi) | hi) | hi) | (((hi | hi) | hi) | hi)) | hi) | hi) | hi) | hi
  · exact confOK_weekday used habits i hi
  · obtain ⟨h, _, hih⟩ := List.mem_flatMap.1 hi
    exact confOK_streak h i hih
  · exact confOK_corr used habits i hi
  · exact confOK_timing used habits i hi
  · exact confOK_suggestions used habits i hi
  · exact confOK_stacking used habits i hi
  · obtain ⟨h, _, hih⟩ := List.mem_flatMap.1 hi
    exact confOK_difficultyAdj h i hih
  · obtain ⟨h, _, hih⟩ := List.mem_flatMap.1 hi
    exact confOK_recovery h i hih
  · obtain ⟨h, _, hih⟩ := List.mem_flatMap.1 hi
    exact confOK_enhanced h i hih
  · exact confOK_timePatterns habits i hi
  · obtain ⟨h, _, hih⟩ := List.mem_flatMap.1 hi
    exact confOK_mood h i hih
  · obtain ⟨h, _, hih⟩ := List.mem_flatMap.1 hi
    exact confOK_trend h i hih

instance : IsTotal AIInsight insightRel := ⟨by
  intro a b
  unfold insightRel
  rcases Nat.lt_trichotomy (priorityWeight a.priority) (priorityWeight b.priority) with h | h | h
  · exact Or.inr (Or.inl h)
  · rcases le_total b.confidence a.confidence with hc | hc
    · exact Or.inl (Or.inr ⟨h.symm, hc⟩)
    · exact Or.inr (Or.inr ⟨h, hc⟩)
  · exact Or.inl (Or.inl h)⟩

instance : IsTrans AIInsight insightRel := ⟨by
  intro a b c hab hbc
  unfold insightRel at *
  rcases hab with h1 | ⟨h1, h1c⟩ <;> rcases hbc with h2 | ⟨h2, h2c⟩
  · exact Or.inl (lt_trans h2 h1)
  · exact Or.inl (by omega)
  · exact Or.inl (by omega)
  · exact Or.inr ⟨by omega, le_trans h2c h1c⟩⟩

/-- C1: `analyzeHabits` returns at most 8 insights, every returned confidence
lies in `[0, 1]`, the returned list is sorted by priority weight (high 3,
medium 2, low 1) descending with ties broken by confidence descending
(`insightRel`), and for a non-empty habit set it is exactly the top 8 of the
stable sort of the concatenated analyzer outputs. -/
theorem analyzeHabits_ranked_bounded (used : List String) (habits : List HabitData) :
    (analyzeHabits used habits).length ≤ 8
    ∧ List.Pairwise insightRel (analyzeHabits used habits)
    ∧ (analyzeHabits used habits).all
        (fun i => decide (0 ≤ i.confidence) && decide (i.confidence ≤ 1)) = true
    ∧ ∀ (h : HabitData) (t : List HabitData),
        analyzeHabits used (h :: t)
          = ((allInsights used (h :: t)).insertionSort insightRel).take 8 := by
  refine ⟨?_, ?_, ?_, fun h t => rfl⟩
  · unfold analyzeHabits
    split
    · simp
    · exact List.length_take_le _ _
  · unfold analyzeHabits
    split
    · exact List.pairwise_singleton _ _
    · exact List.Pairwise.sublist (List.take_sublist _ _)
        (List.sorted_insertionSort insightRel _)
  · rw [List.all_eq_true]
    intro i hi
    have hOK : confOK i := by
      unfold analyzeHabits at hi
      split at hi
      · simp only [List.mem_singleton] at hi
        subst hi
        exact ⟨by norm_num [onboardingInsight], by norm_num [onboardingInsight]⟩
      · have hi' : i ∈ allInsights used habits :=
          (List.mem_insertionSort insightRel).1 (List.Sublist.mem hi (List.take_sublist _ _))
        exact confOK_allInsights used habits i hi'
    simp [hOK.1, hOK.2]

/-! ## Claim C5 -/

theorem commonDates_perm (h1 h2 : HabitData) :
    (commonDates h1 h2).Perm (commonDates h2 h1) := by
  have nd1 : (commonDates h1 h2).Nodup := (nodup_dedupFirst _).filter _
  have nd2 : (commonDates h2 h1).Nodup := (nodup_dedupFirst _).filter _
  rw [List.perm_ext_iff_of_nodup nd1 nd2]
  intro a
  simp only [commonDates, List.mem_filter, mem_dedupFirst, decide_eq_true_eq]
  tauto

theorem calculateHabitCorrelation_comm (h1 h2 : HabitData) :
    calculateHabitCorrelation h1 h2 = calculateHabitCorrelation h2 h1 := by
  have hp := commonDates_perm h1 h2
  have hlen : (commonDates h1 h2).length = (commonDates h2 h1).length := hp.length_eq
  have hboth : (commonDates h1 h2).countP (fun d => completedOn h1 d && completedOn h2 d)
      = (commonDates h2 h1).countP (fun d => completedOn h2 d && completedOn h1 d) := by
    rw [hp.countP_eq]
    exact List.countP_congr (fun d _ => by rw [Bool.and_comm])
  have heither : (commonDates h1 h2).countP (fun d => completedOn h1 d || completedOn h2 d)
      = (commonDates h2 h1).countP (fun d => completedOn h2 d || completedOn h1 d) := by
    rw [hp.countP_eq]
    exact List.countP_congr (fun d _ => by rw [Bool.or_comm])
  simp only [calculateHabitCorrelation]
  rw [hlen, hboth, heither]

/-- Does this insight carry a correlation payload mentioning the unordered
title pair `{t1, t2}` (in either orientation)? -/
def corrMatches (t1 t2 : String) (i : AIInsight) : Bool :=
  match i.data with
  | some (.correlationData a b _) => (a == t1 && b == t2) || (a == t2 && b == t1)
  | _ => false

theorem countP_flatMap_le_countP {l : List α} {f : α → List β} {p : β → Bool} {q : α → Bool}
    (h : ∀ a ∈ l, (f a).countP p ≤ (if q a then 1 else 0)) :
    (l.flatMap f).countP p ≤ l.countP q := by
  induction l with
  | nil => simp
  | cons a t ih =>
    have ha := h a (List.mem_cons_self a t)
    have ht := ih (fun b hb => h b (List.mem_cons_of_mem _ hb))
    simp only [List.flatMap_cons, List.countP_append, List.countP_cons]
    by_cases hq : q a
    · simp only [hq, if_true] at ha
      simp only [hq, if_true]
      omega
    · simp only [hq, if_false] at ha
      simp only [hq, if_false]
      omega

theorem corrPair_data (used : List String) (h h2 : HabitData) {i : AIInsight}
    (hi : i ∈ corrPairInsight used h h2) :
    i.data = some (.correlationData h.title h2.title (calculateHabitCorrelation h h2)) := by
  simp only [corrPairInsight] at hi
  have hx := mem_if_singleton hi
  subst hx
  rfl

theorem corr_insight_titles (used : List String) :
    ∀ (l : List HabitData) (i : AIInsight), i ∈ findHabitCorrelations used l →
      ∃ a ∈ l, ∃ b ∈ l, ∃ c : ℚ, i.data = some (.correlationData a.title b.title c) := by
  intro l
  induction l with
  | nil => intro i hi; simp [findHabitCorrelations] at hi
  | cons h t ih =>
    intro i hi
    simp only [findHabitCorrelations, List.mem_append] at hi
    rcases hi with hi | hi
    · obtain ⟨h2, hh2, hi2⟩ := List.mem_flatMap.1 hi
      exact ⟨h, List.mem_cons_self _ _, h2, List.mem_cons_of_mem _ hh2, _,
        corrPair_data used h h2 hi2⟩
    · obtain ⟨a, ha, b, hb, c, hd⟩ := ih i hi
      exact ⟨a, List.mem_cons_of_mem _ ha, b, List.mem_cons_of_mem _ hb, c, hd⟩

theorem corrMatches_pair_le₁ (used : List String) (h h2 : HabitData) (t1 t2 : String)
    (hh : h.title = t1) :
    (corrPairInsight used h h2).countP (corrMatches t1 t2)
      ≤ (if h2.title == t2 then 1 else 0) := by
  simp only [corrPairInsight]
  split
  · simp only [List.countP_cons, List.countP_nil, Nat.zero_add]
    split
    · rename_i hm
      simp only [corrMatches, Bool.or_eq_true, Bool.and_eq_true, beq_iff_eq] at hm
      have hbt : h2.title = t2 := by
        rcases hm with ⟨_, hb⟩ | ⟨ha, hb⟩
        · exact hb
        · exact hb.trans (hh.symm.trans ha)
      simp [hbt]
    · simp
  · simp

theorem corrMatches_pair_le₂ (used : List String) (h h2 : HabitData) (t1 t2 : String)
    (hh : h.title = t2) :
    (corrPairInsight used h h2).countP (corrMatches t1 t2)
      ≤ (if h2.title == t1 then 1 else 0) := by
  simp only [corrPairInsight]
  split
  · simp only [List.countP_cons, List.countP_nil, Nat.zero_add]
    split
    · rename_i hm
      simp only [corrMatches, Bool.or_eq_true, Bool.and_eq_true, beq_iff_eq] at hm
      have hbt : h2.title = t1 := by
        rcases hm with ⟨ha, hb⟩ | ⟨_, hb⟩
        · exact hb.trans (hh.symm.trans ha)
        · exact hb
      simp [hbt]
    · simp
  · simp

theorem countP_title_le_one {t : List HabitData} (hnd : (t.map (·.title)).Nodup) (s : String) :
    t.countP (fun h2 => h2.title == s) ≤ 1 := by
  have heq : t.countP (fun h2 => h2.title == s)
      = (t.map (·.title)).countP (fun x => x == s) := by
    rw [List.countP_map]; rfl
  rw [heq]
  have hc := List.nodup_iff_count_le_one.1 hnd s
  rwa [List.count] at hc

theorem corr_tail_zero (used : List String) (t : List HabitData) (t1 t2 : String) (s : String)
    (hs : s = t1 ∨ s = t2) (hnotin : s ∉ t.map (·.title)) :
    (findHabitCorrelations used t).countP (corrMatches t1 t2) = 0 := by
  rw [List.countP_eq_zero]
  intro i hi
  obtain ⟨a, ha, b, hb, c, hd⟩ := corr_insight_titles used t i hi
  simp only [corrMatches, hd, Bool.or_eq_true, Bool.and_eq_true, beq_iff_eq]
  rintro (⟨ha1, hb2⟩ | ⟨ha2, hb1⟩) <;> rcases hs with hs | hs
  · exact hnotin (hs ▸ ha1 ▸ List.mem_map_of_mem (·.title) ha)
  · exact hnotin (hs ▸ hb2 ▸ List.mem_map_of_mem (·.title) hb)
  · exact hnotin (hs ▸ hb1 ▸ List.mem_map_of_mem (·.title) hb)
  · exact hnotin (hs ▸ ha2 ▸ List.mem_map_of_mem (·.title) ha)

theorem corr_count_le_one (used : List String) (habits : List HabitData) (t1 t2 : String)
    (hnd : (habits.map (·.title)).Nodup) :
    (findHabitCorrelations used habits).countP (corrMatches t1 t2) ≤ 1 := by
  induction habits with
  | nil => simp [findHabitCorrelations]
  | cons h t ih =>
    have hnd' := hnd
    rw [List.map_cons, List.nodup_cons] at hnd'
    have hndt : (t.map (·.title)).Nodup := hnd'.2
    have hnotin : h.title ∉ t.map (·.title) := hnd'.1
    simp only [findHabitCorrelations, List.countP_append]
    by_cases ht1 : h.title = t1
    · have htail := corr_tail_zero used t t1 t2 h.title (Or.inl ht1) hnotin
      have hhead : (t.flatMap (corrPairInsight used h)).countP (corrMatches t1 t2) ≤ 1 := by
        calc (t.flatMap (corrPairInsight used h)).countP (corrMatches t1 t2)
            ≤ t.countP (fun h2 => h2.title == t2) :=
              countP_flatMap_le_countP (fun h2 _ => corrMatches_pair_le₁ used h h2 t1 t2 ht1)
          _ ≤ 1 := countP_title_le_one hndt t2
      omega
    · by_cases ht2 : h.title = t2
      · have htail := corr_tail_zero used t t1 t2 h.title (Or.inr ht2) hnotin
        have hhead : (t.flatMap (corrPairInsight used h)).countP (corrMatches t1 t2) ≤ 1 := by
          calc (t.flatMap (corrPairInsight used h)).countP (corrMatches t1 t2)
              ≤ t.countP (fun h2 => h2.title == t1) :=
                countP_flatMap_le_countP (fun h2 _ => corrMatches_pair_le₂ used h h2 t1 t2 ht2)
            _ ≤ 1 := countP_title_le_one hndt t1
        omega
      · have hhead : (t.flatMap (corrPairInsight used h)).countP (corrMatches t1 t2) = 0 := by
          rw [List.countP_eq_zero]
          intro i hi
          obtain ⟨hb, hbmem, hi2⟩ := List.mem_flatMap.1 hi
          have hd := corrPair_data used h hb hi2
          simp only [corrMatches, hd, Bool.or_eq_true, Bool.and_eq_true, beq_iff_eq]
          rintro (⟨ha1, _⟩ | ⟨ha2, _⟩)
          · exact ht1 ha1
          · exact ht2 ha2
        have htail := ih hndt
        omega

/-- C5: pairwise habit correlation is symmetric, and for a habit list with
pairwise-distinct titles the correlation engine emits at most one Strong
Connection insight per unordered title pair (never one for `(a, b)` and one for
`(b, a)`). -/
theorem correlation_symmetric_once_per_pair :
    (∀ h1 h2 : HabitData, calculateHabitCorrelation h1 h2 = calculateHabitCorrelation h2 h1)
    ∧ (∀ (used : List String) (habits : List HabitData) (t1 t2 : String),
        (habits.map (·.title)).Nodup →
        (findHabitCorrelations used habits).countP (corrMatches t1 t2) ≤ 1) :=
  ⟨calculateHabitCorrelation_comm, fun used habits t1 t2 hnd =>
    corr_count_le_one used habits t1 t2 hnd⟩

def c5Entry (d : Nat) (c : Bool) : HabitEntry :=
  { date := d, completed := c, completedAt := none, timeOfDay := none, mood := none,
    difficulty := none }

def c5Habit1 : HabitData :=
  { id := "x", title := "X", entries := (List.range 5).map (fun d => c5Entry d true),
    category := none }

def c5Habit2 : HabitData :=
  { id := "y", title := "Y", entries := (List.range 5).map (fun d => c5Entry d true),
    category := none }

unseal Rat.mul Rat.inv Rat.add Rat.sub in
theorem correlation_symmetric_once_per_pair_witness :
    calculateHabitCorrelation c5Habit1 c5Habit2 = calculateHabitCorrelation c5Habit2 c5Habit1
      ∧ (findHabitCorrelations [] [c5Habit1, c5Habit2]).countP (corrMatches "X" "Y") ≤ 1
      ∧ (findHabitCorrelations [] [c5Habit1, c5Habit2]).countP (corrMatches "X" "Y") = 1 :=
  ⟨correlation_symmetric_once_per_pair.1 c5Habit1 c5Habit2,
   correlation_symmetric_once_per_pair.2 [] [c5Habit1, c5Habit2] "X" "Y" (by decide),
   by decide⟩
